import Mathlib

/-!
Shallow embedding of the task-management core of the TAskExplorer repository:
the daily rollover check, the analytics aggregation and the task-store
mutation operations of src/context/TaskContext.tsx, together with the
derived statistics of src/app/(tabs)/analytics.tsx.

Timestamps are modelled as whole minutes since an epoch (Int).  For a
JavaScript Date value built from such a timestamp:
  * toDateString() yields the calendar date in the device local timezone:
    two timestamps render equal strings iff localDay agrees;
  * toISOString().split at the letter T yields the UTC calendar date, so a
    comparison of the stored timestamp against that date string is a
    comparison of UTC day numbers.
The timezone is an offset tz in minutes (positive east of UTC).
-/

namespace TaskExplorer

/-- Minutes in one calendar day. -/
def minutesPerDay : Int := 1440

/-- UTC calendar day number of a timestamp. -/
def utcDay (t : Int) : Int := t.ediv minutesPerDay

/-- Local calendar day number of a timestamp under timezone offset tz. -/
def localDay (tz t : Int) : Int := (t + tz).ediv minutesPerDay

/-- Task record, from the Task interface of src/context/TaskContext.tsx. -/
structure Task where
  id : String
  userId : String
  categoryId : String
  title : String
  isCompleted : Bool
  isDaily : Bool
  lastCompletedDate : Option Int
  createdAt : Int
deriving DecidableEq

/-- Category record, from the Category interface of src/context/TaskContext.tsx. -/
structure Category where
  id : String
  userId : String
  title : String
  orderIndex : Int
  createdAt : Int
deriving DecidableEq

/-- Combined state of the in-memory Task Store (the categories and tasks
React state of the provider) and the remote rows of the signed-in user
(the supabase tables, restricted to rows with user_id equal to the
current user). -/
structure Store where
  userId : Option String
  categories : List Category
  tasks : List Task
  remoteCategories : List Category
  remoteTasks : List Task
deriving DecidableEq

/-! ## Stats Aggregator (src/app/(tabs)/analytics.tsx)

The source computes percentages with JavaScript number arithmetic, i.e.
IEEE-754 binary64: the division completed/total and the multiplication
by 100 each round their exact result to the nearest double (53-bit
significand, ties to even).  List lengths are far below 2^53 and all
intermediate values lie in the normal range, so binary64 rounding on an
exact rational is precisely: scale into [2^52, 2^53), round to the
nearest integer with ties to even, scale back.  Math.round itself is
defined by ECMA-262 exactly on the double value (closest integral
number, ties toward positive infinity), not as a float addition. -/

/-- Round the quotient a / b (natural a, positive natural b) to the
nearest integer, ties to even. -/
def rneDiv (a b : ℕ) : ℕ :=
  let q := a / b
  let r := a % b
  if 2 * r < b then q
  else if b < 2 * r then q + 1
  else if q % 2 = 0 then q else q + 1

/-- Decide a / b < 2 ^ k for natural a, b and integer k. -/
def ratLtPow2 (a b : ℕ) (k : ℤ) : Bool :=
  if 0 ≤ k then decide (a < b * 2 ^ k.toNat)
  else decide (a * 2 ^ (-k).toNat < b)

/-- Round a * 2 ^ s / b to the nearest integer, ties to even. -/
def rneShift (a b : ℕ) (s : ℤ) : ℕ :=
  if 0 ≤ s then rneDiv (a * 2 ^ s.toNat) b
  else rneDiv a (b * 2 ^ (-s).toNat)

/-- Fuel-driven base-2 logarithm: with fuel at least n this computes the
floor of log2 of n, since n at least halves on every step. -/
def log2Aux : ℕ → ℕ → ℕ
  | 0, _ => 0
  | f + 1, n => if n ≤ 1 then 0 else log2Aux f (n / 2) + 1

/-- Floor of the base-2 logarithm of a positive natural number. -/
def natLog2 (n : ℕ) : ℕ := log2Aux n n

/-- A nonnegative binary64 value: mantissa times 2 to the exponent.  A
mantissa 0 encodes zero; otherwise the mantissa lies in
[2 ^ 52, 2 ^ 53). -/
structure Double where
  mant : ℕ
  exp : ℤ
deriving DecidableEq

/-- The binary64 double nearest to the rational a / b (natural a, positive
natural b; ties to even): the result of one JavaScript arithmetic
operation whose exact value is a / b.  The exponent of a / b is
natLog2 a - natLog2 b, less one when a / b falls below that power of
two; the mantissa is a / b scaled into [2 ^ 52, 2 ^ 53) and rounded to
the nearest integer, ties to even. -/
def floatOfRat (a b : ℕ) : Double :=
  if a = 0 then ⟨0, 0⟩
  else
    let e0 : ℤ := (natLog2 a : ℤ) - (natLog2 b : ℤ)
    let e : ℤ := if ratLtPow2 a b e0 then e0 - 1 else e0
    ⟨rneShift a b (52 - e), e - 52⟩

/-- The binary64 product of a double with the exact constant 100,
correctly rounded. -/
def floatMul100 (x : Double) : Double :=
  if 0 ≤ x.exp then floatOfRat (100 * x.mant * 2 ^ x.exp.toNat) 1
  else floatOfRat (100 * x.mant) (2 ^ (-x.exp).toNat)

/-- Math.round of a nonnegative double value m * 2 ^ e: the closest
integral number, ties toward positive infinity (ECMA-262 defines
Math.round exactly on the double value, not as a float addition). -/
def jsRoundF (x : Double) : ℕ :=
  if 0 ≤ x.exp then x.mant * 2 ^ x.exp.toNat
  else
    let k := (-x.exp).toNat
    (2 * x.mant + 2 ^ k) / 2 ^ (k + 1)

/-- DailyStats record computed by the dailyStats memo. -/
structure DailyStats where
  total : Nat
  completed : Nat
  missed : Nat
  percentage : Int
deriving DecidableEq

/-- The dailyStats memo of src/app/(tabs)/analytics.tsx, lines 59 to 71:
Math.round((completed / total) * 100) under binary64 arithmetic, the
division and the multiplication each correctly rounded. -/
def dailyStats (tasks : List Task) : DailyStats :=
  let total := tasks.length
  let completed := (tasks.filter (fun t => t.isCompleted)).length
  let missed := total - completed
  let percentage : Int :=
    if 0 < total then (jsRoundF (floatMul100 (floatOfRat completed total)) : ℤ)
    else 0
  { total := total, completed := completed, missed := missed, percentage := percentage }

/-- Per-category statistics record computed by the categoryStats memo. -/
structure CategoryStat where
  id : String
  title : String
  total : Nat
  completed : Nat
  percentage : Int
deriving DecidableEq

/-- The categoryStats memo of src/app/(tabs)/analytics.tsx, lines 74 to 88,
with the same binary64 evaluation of the percentage as dailyStats. -/
def categoryStats (categories : List Category) (tasks : List Task) : List CategoryStat :=
  categories.map fun category =>
    let categoryTasks := tasks.filter (fun t => t.categoryId == category.id)
    let completed := (categoryTasks.filter (fun t => t.isCompleted)).length
    let percentage : Int :=
      if 0 < categoryTasks.length then
        (jsRoundF (floatMul100 (floatOfRat completed categoryTasks.length)) : ℤ)
      else 0
    { id := category.id
      title := category.title
      total := categoryTasks.length
      completed := completed
      percentage := percentage }

/-- Round half up, written after the words of the spec: standard
round-half-up of a rational value. -/
def specRoundHalfUp (q : ℚ) : ℤ := ⌊q + 1 / 2⌋

/-- C5 (amended): for every task list, the computed DailyStats satisfies
completed + missed = total and percentage = 0 when total = 0 (never a
division fault); for nonzero totals the percentage is Math.round of the
binary64 evaluation of (completed/total)*100, which can differ from the
exact round-half-up of 100*completed/total where double rounding moves
the product across a half-integer boundary (see the counterexample). -/
theorem dailyStats_spec (tasks : List Task) :
    (dailyStats tasks).completed + (dailyStats tasks).missed = (dailyStats tasks).total ∧
    ((dailyStats tasks).total = 0 → (dailyStats tasks).percentage = 0) ∧
    (0 < (dailyStats tasks).total →
      (dailyStats tasks).percentage =
        (jsRoundF (floatMul100
          (floatOfRat (dailyStats tasks).completed (dailyStats tasks).total)) : ℤ)) := by
  refine ⟨?_, ?_, ?_⟩
  · have hle : (tasks.filter (fun t => t.isCompleted)).length ≤ tasks.length :=
      List.length_filter_le _ _
    simp only [dailyStats]
    omega
  · intro h0
    simp only [dailyStats] at h0 ⊢
    simp [h0]
  · intro hpos
    simp only [dailyStats] at hpos ⊢
    rw [if_pos hpos]

/-- C5 counterexample: 40 tasks of which 23 are completed.  The binary64
evaluation of (23/40)*100 is the double 8092405580431359 * 2^-47, just
below 57.5, so the program computes Math.round of that value, 57, while
the standard round-half-up of the exact 100*23/40 = 57.5 required by the
claim is 58: the claim as stated is false at this input. -/
theorem dailyStats_round_counterexample :
    (dailyStats (List.replicate 23 (Task.mk "d" "u" "c" "d" true false none 0) ++
      List.replicate 17 (Task.mk "m" "u" "c" "m" false false none 0))).total = 40 ∧
    (dailyStats (List.replicate 23 (Task.mk "d" "u" "c" "d" true false none 0) ++
      List.replicate 17 (Task.mk "m" "u" "c" "m" false false none 0))).completed = 23 ∧
    (dailyStats (List.replicate 23 (Task.mk "d" "u" "c" "d" true false none 0) ++
      List.replicate 17 (Task.mk "m" "u" "c" "m" false false none 0))).percentage = 57 ∧
    specRoundHalfUp ((100 * (23 : ℚ)) / 40) = 58 := by
  refine ⟨by decide, by decide, by decide, ?_⟩
  have h1 : (100 * (23 : ℚ)) / 40 + 1 / 2 = 58 := by norm_num
  unfold specRoundHalfUp
  rw [h1]
  simp

/-- Witness for dailyStats_spec at a concrete task list: three tasks with
two completed give total 3 and percentage 67. -/
theorem dailyStats_spec_witness :
    0 < (dailyStats
      [{ id := "a", userId := "u", categoryId := "c", title := "a",
         isCompleted := true, isDaily := true, lastCompletedDate := some 0, createdAt := 0 },
       { id := "b", userId := "u", categoryId := "c", title := "b",
         isCompleted := true, isDaily := false, lastCompletedDate := none, createdAt := 0 },
       { id := "d", userId := "u", categoryId := "c", title := "d",
         isCompleted := false, isDaily := true, lastCompletedDate := none, createdAt := 0 }]).total ∧
    (dailyStats
      [{ id := "a", userId := "u", categoryId := "c", title := "a",
         isCompleted := true, isDaily := true, lastCompletedDate := some 0, createdAt := 0 },
       { id := "b", userId := "u", categoryId := "c", title := "b",
         isCompleted := true, isDaily := false, lastCompletedDate := none, createdAt := 0 },
       { id := "d", userId := "u", categoryId := "c", title := "d",
         isCompleted := false, isDaily := true, lastCompletedDate := none, createdAt := 0 }]).percentage =
      (jsRoundF (floatMul100 (floatOfRat
        (dailyStats
      [{ id := "a", userId := "u", categoryId := "c", title := "a",
         isCompleted := true, isDaily := true, lastCompletedDate := some 0, createdAt := 0 },
       { id := "b", userId := "u", categoryId := "c", title := "b",
         isCompleted := true, isDaily := false, lastCompletedDate := none, createdAt := 0 },
       { id := "d", userId := "u", categoryId := "c", title := "d",
         isCompleted := false, isDaily := true, lastCompletedDate := none, createdAt := 0 }]).completed
        (dailyStats
      [{ id := "a", userId := "u", categoryId := "c", title := "a",
         isCompleted := true, isDaily := true, lastCompletedDate := some 0, createdAt := 0 },
       { id := "b", userId := "u", categoryId := "c", title := "b",
         isCompleted := true, isDaily := false, lastCompletedDate := none, createdAt := 0 },
       { id := "d", userId := "u", categoryId := "c", title := "d",
         isCompleted := false, isDaily := true, lastCompletedDate := none, createdAt := 0 }]).total)) : ℤ) :=
  ⟨by decide, (dailyStats_spec _).2.2 (by decide)⟩

/-! ## Rollover Engine (src/context/TaskContext.tsx, checkAndResetDailyTasks) -/

/-- The client-side staleness filter of checkAndResetDailyTasks (lines 152
to 157): a task is picked when it is daily, has a lastCompletedDate, and
that timestamp renders a toDateString different from today, i.e. lies on
a different LOCAL calendar day. -/
def clientStale (tz now : Int) (t : Task) : Bool :=
  t.isDaily &&
    (match t.lastCompletedDate with
     | some d => decide (localDay tz d ≠ localDay tz now)
     | none => false)

/-- The filter of the remote update issued by checkAndResetDailyTasks
(lines 161 to 166): is_daily = true and last_completed_date strictly
before the UTC calendar date of now (toISOString yields the UTC date; a
row with a NULL last_completed_date never satisfies the comparison). -/
def remoteStale (now : Int) (t : Task) : Bool :=
  t.isDaily &&
    (match t.lastCompletedDate with
     | some d => decide (utcDay d < utcDay now)
     | none => false)

/-- Effect of the remote update of checkAndResetDailyTasks on the rows of
the user: set is_completed to false on every row matching remoteStale. -/
def resetStale (now : Int) (ts : List Task) : List Task :=
  ts.map fun t => if remoteStale now t then { t with isCompleted := false } else t

/-- Modelled from the spec: the body of the reset_daily_tasks SQL function
invoked by rpc at line 175 is not under src/ (src/supabse.md only
describes it).  Per spec section 4.2 step 3 and the description in
src/supabse.md, it resets tasks whose daily flag is true and whose
last-completed date is strictly before today on the server (UTC). -/
def serverResetDailyTasks (now : Int) (ts : List Task) : List Task :=
  ts.map fun t => if remoteStale now t then { t with isCompleted := false } else t

/-- checkAndResetDailyTasks of src/context/TaskContext.tsx, lines 146 to
180, as a state transformer.  The Bool flags give the outcome of the
three remote interactions: the update write, the loadData reload and the
reset_daily_tasks rpc.  The result carries the new state, the number of
remote calls issued and whether the returned promise rejects (the outer
catch logs and never rethrows, so it never rejects). -/
def checkAndResetDailyTasks (tz now : Int) (updOk loadOk rpcOk : Bool)
    (s : Store) : Store × Nat × Bool :=
  match s.userId with
  | none => (s, 0, false)
  | some _ =>
    if s.tasks.any (clientStale tz now) then
      if updOk then
        let r := resetStale now s.remoteTasks
        let s1 :=
          if loadOk then
            { s with remoteTasks := r, tasks := r, categories := s.remoteCategories }
          else
            { s with remoteTasks := r }
        if rpcOk then
          ({ s1 with remoteTasks := serverResetDailyTasks now s1.remoteTasks }, 4, false)
        else (s1, 4, false)
      else (s, 1, false)
    else
      if rpcOk then
        ({ s with remoteTasks := serverResetDailyTasks now s.remoteTasks }, 1, false)
      else (s, 1, false)

/-- The server-side reset and the client-side remote update reset the same
rows. -/
theorem serverResetDailyTasks_eq_resetStale (now : Int) (ts : List Task) :
    serverResetDailyTasks now ts = resetStale now ts := rfl

/-- remoteStale does not read the completion flag. -/
theorem remoteStale_set_isCompleted (now : Int) (t : Task) (b : Bool) :
    remoteStale now { t with isCompleted := b } = remoteStale now t := by
  cases t; rfl

/-- Resetting stale rows twice is the same as resetting them once. -/
theorem resetStale_idem (now : Int) (ts : List Task) :
    resetStale now (resetStale now ts) = resetStale now ts := by
  induction ts with
  | nil => rfl
  | cons t ts ih =>
    simp only [resetStale, List.map_cons, List.map_map] at ih ⊢
    by_cases h : remoteStale now t = true
    · simp [h, remoteStale_set_isCompleted, ih]
    · simp only [Bool.not_eq_true] at h
      simp [h, ih]

/-- Elements of resetStale keep their id. -/
theorem resetStale_id (now : Int) (t : Task) :
    (if remoteStale now t then { t with isCompleted := false } else t).id = t.id := by
  by_cases h : remoteStale now t = true <;> simp [h]

/-- Two rollover runs at the very same instant collapse to one, for every
store and every outcome of the remote calls. -/
theorem checkAndResetDailyTasks_idem_same_instant (tz now : Int)
    (updOk loadOk rpcOk : Bool) (s : Store) :
    (checkAndResetDailyTasks tz now updOk loadOk rpcOk
        (checkAndResetDailyTasks tz now updOk loadOk rpcOk s).1).1 =
      (checkAndResetDailyTasks tz now updOk loadOk rpcOk s).1 := by
  obtain ⟨uid, cats, tasks, rcats, rtasks⟩ := s
  cases uid with
  | none => rfl
  | some u =>
    simp only [checkAndResetDailyTasks, serverResetDailyTasks_eq_resetStale]
    cases updOk <;> cases loadOk <;> cases rpcOk <;>
      by_cases hA : tasks.any (clientStale tz now) = true <;>
      (try simp [hA, resetStale_idem]) <;>
      (split <;> rfl)

/-- The client staleness filter depends on the current time only through
the local calendar day. -/
theorem clientStale_congr (tz now1 now2 : Int)
    (h : localDay tz now1 = localDay tz now2) :
    clientStale tz now1 = clientStale tz now2 := by
  funext t
  simp only [clientStale, h]

/-- The remote reset filter depends on the current time only through the
UTC calendar day. -/
theorem remoteStale_congr (now1 now2 : Int) (h : utcDay now1 = utcDay now2) :
    remoteStale now1 = remoteStale now2 := by
  funext t
  simp only [remoteStale, h]

/-- The remote reset depends on the current time only through the UTC
calendar day. -/
theorem resetStale_congr (now1 now2 : Int) (h : utcDay now1 = utcDay now2) :
    resetStale now1 = resetStale now2 := by
  funext ts
  simp only [resetStale, remoteStale_congr now1 now2 h]

/-- A rollover run depends on the current time only through the local and
the UTC calendar day. -/
theorem checkAndResetDailyTasks_congr (tz now1 now2 : Int)
    (updOk loadOk rpcOk : Bool)
    (hl : localDay tz now1 = localDay tz now2)
    (hu : utcDay now1 = utcDay now2) (s : Store) :
    checkAndResetDailyTasks tz now1 updOk loadOk rpcOk s =
      checkAndResetDailyTasks tz now2 updOk loadOk rpcOk s := by
  simp only [checkAndResetDailyTasks, serverResetDailyTasks_eq_resetStale,
    clientStale_congr tz now1 now2 hl, resetStale_congr now1 now2 hu]

/-- C1 (amended): running checkAndResetDailyTasks twice in succession
leaves the Task Store (categories and tasks) in the same state after the
second run as after the first, for every store and every outcome of the
remote calls, provided the two runs fall on the same LOCAL calendar date
and also on the same UTC calendar day (in particular for immediate
back-to-back runs).  When UTC midnight passes between two runs of one
local day, the second run can reset further tasks, because the remote
write filters by UTC date; see the counterexample. -/
theorem checkAndResetDailyTasks_same_day_idempotent (tz now1 now2 : Int)
    (updOk loadOk rpcOk : Bool) (s : Store)
    (hlocal : localDay tz now1 = localDay tz now2)
    (hutc : utcDay now1 = utcDay now2) :
    ((checkAndResetDailyTasks tz now2 updOk loadOk rpcOk
        (checkAndResetDailyTasks tz now1 updOk loadOk rpcOk s).1).1).categories =
      ((checkAndResetDailyTasks tz now1 updOk loadOk rpcOk s).1).categories ∧
    ((checkAndResetDailyTasks tz now2 updOk loadOk rpcOk
        (checkAndResetDailyTasks tz now1 updOk loadOk rpcOk s).1).1).tasks =
      ((checkAndResetDailyTasks tz now1 updOk loadOk rpcOk s).1).tasks := by
  rw [← checkAndResetDailyTasks_congr tz now1 now2 updOk loadOk rpcOk hlocal hutc
      (checkAndResetDailyTasks tz now1 updOk loadOk rpcOk s).1,
    checkAndResetDailyTasks_idem_same_instant]
  exact ⟨rfl, rfl⟩

/-- C1 counterexample: timezone offset -600 minutes.  Both runs happen on
local calendar day 99, but UTC midnight lies between them.  Task "a"
(completed on local day 98) keeps the client filter firing on both runs
because the filter ignores isCompleted; on the first run the UTC-date
remote filter resets only "a", on the second run (next UTC day) it also
resets "x" (completed on UTC day 99, local day 99).  The task lists
after the two runs differ, so the claim as stated is false at this
input. -/
theorem checkAndResetDailyTasks_idempotent_counterexample :
    localDay (-600) 143760 = localDay (-600) 144300 ∧
    ((checkAndResetDailyTasks (-600) 144300 true true true
        (checkAndResetDailyTasks (-600) 143760 true true true
          (Store.mk (some "u") []
            [Task.mk "a" "u" "c" "a" true true (some 141720) 0,
             Task.mk "x" "u" "c" "x" true true (some 143460) 0]
            []
            [Task.mk "a" "u" "c" "a" true true (some 141720) 0,
             Task.mk "x" "u" "c" "x" true true (some 143460) 0])).1).1).tasks ≠
      ((checkAndResetDailyTasks (-600) 143760 true true true
          (Store.mk (some "u") []
            [Task.mk "a" "u" "c" "a" true true (some 141720) 0,
             Task.mk "x" "u" "c" "x" true true (some 143460) 0]
            []
            [Task.mk "a" "u" "c" "a" true true (some 141720) 0,
             Task.mk "x" "u" "c" "x" true true (some 143460) 0])).1).tasks := by
  decide

/-- Witness for checkAndResetDailyTasks_same_day_idempotent at a concrete
input: two distinct instants of the same local and UTC day, on a store
holding a stale completed daily task. -/
theorem checkAndResetDailyTasks_same_day_idempotent_witness :
    localDay 0 2000 = localDay 0 2500 ∧ utcDay 2000 = utcDay 2500 ∧
    (((checkAndResetDailyTasks 0 2500 true true true
        (checkAndResetDailyTasks 0 2000 true true true
          (Store.mk (some "u") [] [Task.mk "w" "u" "c" "w" true true (some 100) 0]
            [] [Task.mk "w" "u" "c" "w" true true (some 100) 0])).1).1).categories =
      ((checkAndResetDailyTasks 0 2000 true true true
          (Store.mk (some "u") [] [Task.mk "w" "u" "c" "w" true true (some 100) 0]
            [] [Task.mk "w" "u" "c" "w" true true (some 100) 0])).1).categories ∧
     ((checkAndResetDailyTasks 0 2500 true true true
        (checkAndResetDailyTasks 0 2000 true true true
          (Store.mk (some "u") [] [Task.mk "w" "u" "c" "w" true true (some 100) 0]
            [] [Task.mk "w" "u" "c" "w" true true (some 100) 0])).1).1).tasks =
      ((checkAndResetDailyTasks 0 2000 true true true
          (Store.mk (some "u") [] [Task.mk "w" "u" "c" "w" true true (some 100) 0]
            [] [Task.mk "w" "u" "c" "w" true true (some 100) 0])).1).tasks) :=
  ⟨by decide, by decide,
    checkAndResetDailyTasks_same_day_idempotent 0 2000 2500 true true true
      (Store.mk (some "u") [] [Task.mk "w" "u" "c" "w" true true (some 100) 0]
        [] [Task.mk "w" "u" "c" "w" true true (some 100) 0])
      (by decide) (by decide)⟩

/-- The local task list after a rollover run is either untouched or the
reloaded result of the remote update. -/
theorem checkAndResetDailyTasks_tasks_eq (tz now : Int) (updOk loadOk rpcOk : Bool)
    (s : Store) :
    ((checkAndResetDailyTasks tz now updOk loadOk rpcOk s).1).tasks = s.tasks ∨
    ((checkAndResetDailyTasks tz now updOk loadOk rpcOk s).1).tasks =
      resetStale now s.remoteTasks := by
  obtain ⟨uid, cats, tasks, rcats, rtasks⟩ := s
  cases uid with
  | none => exact Or.inl rfl
  | some u =>
    simp only [checkAndResetDailyTasks]
    cases updOk <;> cases loadOk <;> cases rpcOk <;>
      by_cases hA : tasks.any (clientStale tz now) = true <;>
      simp [hA]

/-- Membership in resetStale. -/
theorem mem_resetStale (now : Int) (ts : List Task) (t' : Task) :
    t' ∈ resetStale now ts ↔
      ∃ t ∈ ts, t' = if remoteStale now t then { t with isCompleted := false } else t := by
  simp only [resetStale, List.mem_map]
  constructor
  · rintro ⟨t, ht, rfl⟩; exact ⟨t, ht, rfl⟩
  · rintro ⟨t, ht, rfl⟩; exact ⟨t, ht, rfl⟩

/-- A task that the remote filter does not match is preserved by a rollover
run, in every branch: any task of the resulting local store carrying its
id is that very task, unchanged. -/
theorem rollover_preserves_task (tz now : Int) (updOk loadOk rpcOk : Bool)
    (s : Store) (t : Task)
    (hsync : s.tasks = s.remoteTasks)
    (hnd : (s.tasks.map Task.id).Nodup)
    (ht : t ∈ s.tasks)
    (hrs : remoteStale now t = false) :
    ∀ t' ∈ ((checkAndResetDailyTasks tz now updOk loadOk rpcOk s).1).tasks,
      t'.id = t.id → t' = t := by
  intro t' ht' hid
  rcases checkAndResetDailyTasks_tasks_eq tz now updOk loadOk rpcOk s with h | h
  · rw [h] at ht'
    exact List.inj_on_of_nodup_map hnd ht' ht hid
  · rw [h, ← hsync] at ht'
    rcases (mem_resetStale now s.tasks t').mp ht' with ⟨t0, ht0, rfl⟩
    rw [resetStale_id] at hid
    have ht0t : t0 = t := List.inj_on_of_nodup_map hnd ht0 ht hid
    subst ht0t
    simp [hrs]

/-- When the store holds a client-stale task and the remote update and the
reload both succeed, the local task list after the run is the reset of
the remote rows. -/
theorem rollover_tasks_of_stale (tz now : Int) (rpcOk : Bool) (s : Store)
    (u : String) (hu : s.userId = some u)
    (hA : s.tasks.any (clientStale tz now) = true) :
    ((checkAndResetDailyTasks tz now true true rpcOk s).1).tasks =
      resetStale now s.remoteTasks := by
  unfold checkAndResetDailyTasks
  rw [hu]
  simp only [hA]
  cases rpcOk <;> simp

/-- C2 (amended): a daily completed task whose lastCompletedDate lies on an
earlier LOCAL calendar day and also on an earlier UTC calendar day is
reset to incomplete by a successful rollover run.  (The source compares
the local date on the client but filters the remote write by the UTC
date, so the UTC condition is required as well.) -/
theorem rollover_resets_stale (tz now : Int) (rpcOk : Bool) (s : Store)
    (u : String) (t : Task) (d : Int)
    (hu : s.userId = some u)
    (hsync : s.tasks = s.remoteTasks)
    (hnd : (s.tasks.map Task.id).Nodup)
    (ht : t ∈ s.tasks)
    (hdaily : t.isDaily = true)
    (hcomp : t.isCompleted = true)
    (hlcd : t.lastCompletedDate = some d)
    (hlocal : localDay tz d < localDay tz now)
    (hutc : utcDay d < utcDay now) :
    ∀ t' ∈ ((checkAndResetDailyTasks tz now true true rpcOk s).1).tasks,
      t'.id = t.id → t'.isCompleted = false := by
  have hstale : clientStale tz now t = true := by
    simp only [clientStale, hdaily, hlcd, Bool.true_and, decide_eq_true_eq]
    omega
  have hA : s.tasks.any (clientStale tz now) = true :=
    List.any_eq_true.mpr ⟨t, ht, hstale⟩
  intro t' ht' hid
  rw [rollover_tasks_of_stale tz now rpcOk s u hu hA, ← hsync] at ht'
  rcases (mem_resetStale now s.tasks t').mp ht' with ⟨t0, ht0, rfl⟩
  rw [resetStale_id] at hid
  have ht0t : t0 = t := List.inj_on_of_nodup_map hnd ht0 ht hid
  subst ht0t
  have hrs : remoteStale now t0 = true := by
    simp [remoteStale, hdaily, hlcd, hutc]
  simp [hrs]

/-- C2 counterexample: in a timezone east of UTC (offset +840 minutes) a
daily completed task whose lastCompletedDate lies on an earlier local
calendar day survives a fully successful rollover run still completed,
because the remote write filters by the UTC date: the claim as stated is
false at this input. -/
theorem rollover_resets_stale_counterexample :
    (Task.mk "t1" "u" "c" "t" true true (some 360) 0).isDaily = true ∧
    (Task.mk "t1" "u" "c" "t" true true (some 360) 0).isCompleted = true ∧
    localDay 840 360 < localDay 840 660 ∧
    ∀ t' ∈ ((checkAndResetDailyTasks 840 660 true true true
        (Store.mk (some "u") [] [Task.mk "t1" "u" "c" "t" true true (some 360) 0]
          [] [Task.mk "t1" "u" "c" "t" true true (some 360) 0])).1).tasks,
      t'.isCompleted = true := by decide

/-- Witness for rollover_resets_stale at a concrete input. -/
theorem rollover_resets_stale_witness :
    Task.mk "t2" "u" "c" "t" true true (some 720) 0 ∈
      (Store.mk (some "u") [] [Task.mk "t2" "u" "c" "t" true true (some 720) 0]
        [] [Task.mk "t2" "u" "c" "t" true true (some 720) 0]).tasks ∧
    localDay 0 720 < localDay 0 2880 ∧ utcDay 720 < utcDay 2880 ∧
    ∀ t' ∈ ((checkAndResetDailyTasks 0 2880 true true true
        (Store.mk (some "u") [] [Task.mk "t2" "u" "c" "t" true true (some 720) 0]
          [] [Task.mk "t2" "u" "c" "t" true true (some 720) 0])).1).tasks,
      t'.id = (Task.mk "t2" "u" "c" "t" true true (some 720) 0).id →
        t'.isCompleted = false :=
  ⟨by decide, by decide, by decide,
    rollover_resets_stale 0 2880 true
      (Store.mk (some "u") [] [Task.mk "t2" "u" "c" "t" true true (some 720) 0]
        [] [Task.mk "t2" "u" "c" "t" true true (some 720) 0])
      "u" (Task.mk "t2" "u" "c" "t" true true (some 720) 0) 720
      rfl rfl (by decide) (by decide) rfl rfl rfl (by decide) (by decide)⟩

/-- C3 (amended): a rollover run leaves unchanged every non-daily task,
and every daily task completed on the current LOCAL calendar date whose
timestamp does not lie on an earlier UTC calendar date.  (The remote
write filters by the UTC date, so a task completed today local time but
on an earlier UTC date can be reset; see the counterexample.) -/
theorem rollover_frame (tz now : Int) (updOk loadOk rpcOk : Bool)
    (s : Store) (t : Task)
    (hsync : s.tasks = s.remoteTasks)
    (hnd : (s.tasks.map Task.id).Nodup)
    (ht : t ∈ s.tasks)
    (hcase : t.isDaily = false ∨
      ∃ d, t.lastCompletedDate = some d ∧ localDay tz d = localDay tz now ∧
        utcDay now ≤ utcDay d) :
    ∀ t' ∈ ((checkAndResetDailyTasks tz now updOk loadOk rpcOk s).1).tasks,
      t'.id = t.id →
        t'.isCompleted = t.isCompleted ∧
        t'.lastCompletedDate = t.lastCompletedDate := by
  have hrs : remoteStale now t = false := by
    rcases hcase with h | ⟨d, hd, hld, hle⟩
    · simp [remoteStale, h]
    · simp only [remoteStale, hd, Bool.and_eq_false_iff, decide_eq_false_iff_not]
      right
      omega
  intro t' ht' hid
  rw [rollover_preserves_task tz now updOk loadOk rpcOk s t hsync hnd ht hrs t' ht' hid]
  exact ⟨rfl, rfl⟩

/-- C3 counterexample: timezone offset -600 minutes (west of UTC).  The
second task is daily and was completed on the CURRENT local calendar day,
yet a fully successful rollover run flips its isCompleted to false,
because its timestamp lies on an earlier UTC day and another stale task
triggers the remote write: the claim as stated is false at this input. -/
theorem rollover_frame_counterexample :
    (Task.mk "b" "u" "c" "b" true true (some 143460) 0).isDaily = true ∧
    (Task.mk "b" "u" "c" "b" true true (some 143460) 0).isCompleted = true ∧
    localDay (-600) 143460 = localDay (-600) 144300 ∧
    ∀ t' ∈ ((checkAndResetDailyTasks (-600) 144300 true true true
        (Store.mk (some "u") []
          [Task.mk "a" "u" "c" "a" true true (some 141720) 0,
           Task.mk "b" "u" "c" "b" true true (some 143460) 0]
          []
          [Task.mk "a" "u" "c" "a" true true (some 141720) 0,
           Task.mk "b" "u" "c" "b" true true (some 143460) 0])).1).tasks,
      t'.id = "b" → t'.isCompleted = false := by decide

/-- Witness for rollover_frame at a concrete input: a completed non-daily
task is untouched by a successful rollover run. -/
theorem rollover_frame_witness :
    Task.mk "n1" "u" "c" "n" true false none 0 ∈
      (Store.mk (some "u") [] [Task.mk "n1" "u" "c" "n" true false none 0]
        [] [Task.mk "n1" "u" "c" "n" true false none 0]).tasks ∧
    ∀ t' ∈ ((checkAndResetDailyTasks 0 0 true true true
        (Store.mk (some "u") [] [Task.mk "n1" "u" "c" "n" true false none 0]
          [] [Task.mk "n1" "u" "c" "n" true false none 0])).1).tasks,
      t'.id = (Task.mk "n1" "u" "c" "n" true false none 0).id →
        t'.isCompleted = (Task.mk "n1" "u" "c" "n" true false none 0).isCompleted ∧
        t'.lastCompletedDate = (Task.mk "n1" "u" "c" "n" true false none 0).lastCompletedDate :=
  ⟨by decide,
    rollover_frame 0 0 true true true
      (Store.mk (some "u") [] [Task.mk "n1" "u" "c" "n" true false none 0]
        [] [Task.mk "n1" "u" "c" "n" true false none 0])
      (Task.mk "n1" "u" "c" "n" true false none 0)
      rfl (by decide) (by decide) (Or.inl rfl)⟩

/-- C4 (amended): a daily task observed completed with NO lastCompletedDate
is skipped by the rollover check: neither the client filter nor the
remote filter matches it, so it stays completed rather than being reset
defensively. -/
theorem rollover_skips_undated (tz now : Int) (updOk loadOk rpcOk : Bool)
    (s : Store) (t : Task)
    (hsync : s.tasks = s.remoteTasks)
    (hnd : (s.tasks.map Task.id).Nodup)
    (ht : t ∈ s.tasks)
    (hdaily : t.isDaily = true)
    (hcomp : t.isCompleted = true)
    (hnone : t.lastCompletedDate = none) :
    ∀ t' ∈ ((checkAndResetDailyTasks tz now updOk loadOk rpcOk s).1).tasks,
      t'.id = t.id → t'.isCompleted = true := by
  have hrs : remoteStale now t = false := by
    simp [remoteStale, hnone]
  intro t' ht' hid
  rw [rollover_preserves_task tz now updOk loadOk rpcOk s t hsync hnd ht hrs t' ht' hid]
  exact hcomp

/-- C4 counterexample: a daily task completed with no lastCompletedDate is
still completed after a fully successful rollover run, against the claim
that it is reset defensively. -/
theorem rollover_skips_undated_counterexample :
    (Task.mk "t4" "u" "c" "t" true true none 0).isDaily = true ∧
    (Task.mk "t4" "u" "c" "t" true true none 0).isCompleted = true ∧
    (Task.mk "t4" "u" "c" "t" true true none 0).lastCompletedDate = none ∧
    ∀ t' ∈ ((checkAndResetDailyTasks 0 500000 true true true
        (Store.mk (some "u") [] [Task.mk "t4" "u" "c" "t" true true none 0]
          [] [Task.mk "t4" "u" "c" "t" true true none 0])).1).tasks,
      t'.isCompleted = true := by decide

/-- Witness for rollover_skips_undated at a concrete input. -/
theorem rollover_skips_undated_witness :
    Task.mk "t5" "u" "c" "t" true true none 0 ∈
      (Store.mk (some "u") [] [Task.mk "t5" "u" "c" "t" true true none 0]
        [] [Task.mk "t5" "u" "c" "t" true true none 0]).tasks ∧
    ∀ t' ∈ ((checkAndResetDailyTasks 0 500000 true true true
        (Store.mk (some "u") [] [Task.mk "t5" "u" "c" "t" true true none 0]
          [] [Task.mk "t5" "u" "c" "t" true true none 0])).1).tasks,
      t'.id = (Task.mk "t5" "u" "c" "t" true true none 0).id →
        t'.isCompleted = true :=
  ⟨by decide,
    rollover_skips_undated 0 500000 true true true
      (Store.mk (some "u") [] [Task.mk "t5" "u" "c" "t" true true none 0]
        [] [Task.mk "t5" "u" "c" "t" true true none 0])
      (Task.mk "t5" "u" "c" "t" true true none 0)
      rfl (by decide) (by decide) rfl rfl rfl⟩

/-- C6: the computed category statistics hold exactly one entry per
category, in the order of the category list (the lists of ids coincide),
and a category with zero tasks gets percentage 0, never a division
fault. -/
theorem categoryStats_spec (categories : List Category) (tasks : List Task) :
    (categoryStats categories tasks).map CategoryStat.id =
      categories.map Category.id ∧
    ∀ st ∈ categoryStats categories tasks, st.total = 0 → st.percentage = 0 := by
  constructor
  · simp only [categoryStats, List.map_map]
    apply List.map_congr_left
    intro c _
    rfl
  · intro st hst h0
    simp only [categoryStats, List.mem_map] at hst
    rcases hst with ⟨c, _, rfl⟩
    simp only at h0 ⊢
    simp [h0]

/-- Witness for categoryStats_spec: a category with zero tasks yields the
entry with percentage 0. -/
theorem categoryStats_spec_witness :
    CategoryStat.mk "c0" "T" 0 0 0 ∈
      categoryStats [Category.mk "c0" "u" "T" 0 0] [] ∧
    (CategoryStat.mk "c0" "T" 0 0 0).total = 0 ∧
    (CategoryStat.mk "c0" "T" 0 0 0).percentage = 0 :=
  ⟨by decide, rfl,
    (categoryStats_spec [Category.mk "c0" "u" "T" 0 0] []).2
      (CategoryStat.mk "c0" "T" 0 0 0) (by decide) rfl⟩

/-! ## reorderCategories (src/context/TaskContext.tsx, lines 375 to 393) -/

/-- One remote write of the reorder loop: set order_index to idx on the row
whose id matches. -/
def updateOrderIndex (cid : String) (idx : Int) (l : List Category) : List Category :=
  l.map fun c => if c.id == cid then { c with orderIndex := idx } else c

/-- The sequence of remote writes issued by reorderCategories: one update
per element of the given list, carrying its position. -/
def applyReorder : Int → List Category → List Category → List Category
  | _, [], remote => remote
  | i, g :: gs, remote => applyReorder (i + 1) gs (updateOrderIndex g.id i remote)

/-- reorderCategories of src/context/TaskContext.tsx: guarded on a signed-in
user; issues one order_index update per given category, then replaces the
local category list with the given list as is. -/
def reorderCategories (given : List Category) (s : Store) : Store × Nat × Bool :=
  match s.userId with
  | none => (s, 0, false)
  | some _ =>
    ({ s with remoteCategories := applyReorder 0 given s.remoteCategories,
              categories := given }, given.length, false)

/-- Pointwise effect of the reorder writes on one remote row. -/
def applyReorderFun : Int → List Category → Category → Category
  | _, [], c => c
  | i, g :: gs, c =>
    applyReorderFun (i + 1) gs (if c.id == g.id then { c with orderIndex := i } else c)

/-- The reorder writes act rowwise. -/
theorem applyReorder_eq_map : ∀ (gs : List Category) (i : Int) (remote : List Category),
    applyReorder i gs remote = remote.map (applyReorderFun i gs)
  | [], i, remote => by
    simp [applyReorder, applyReorderFun]
  | g :: gs, i, remote => by
    simp only [applyReorder, updateOrderIndex]
    rw [applyReorder_eq_map gs (i + 1), List.map_map]
    apply List.map_congr_left
    intro c _
    rfl

/-- The reorder writes never change the id of a row. -/
theorem applyReorderFun_id : ∀ (gs : List Category) (i : Int) (c : Category),
    (applyReorderFun i gs c).id = c.id
  | [], _, _ => rfl
  | g :: gs, i, c => by
    simp only [applyReorderFun]
    rw [applyReorderFun_id gs]
    by_cases h : (c.id == g.id) = true <;> simp [h]

/-- A row whose id is not among the given ids is untouched. -/
theorem applyReorderFun_not_mem : ∀ (gs : List Category) (i : Int) (c : Category),
    c.id ∉ gs.map Category.id → applyReorderFun i gs c = c
  | [], _, _, _ => rfl
  | g :: gs, i, c, h => by
    simp only [List.map_cons, List.mem_cons, not_or] at h
    obtain ⟨h1, h2⟩ := h
    have hne : (c.id == g.id) = false := by simp [h1]
    simp only [applyReorderFun, hne, Bool.false_eq_true, if_false]
    exact applyReorderFun_not_mem gs (i + 1) c h2

/-- A row whose id sits at position k of the given list (ids distinct) ends
with order index i + k. -/
theorem applyReorderFun_get : ∀ (gs : List Category) (i : Int) (c : Category)
    (k : Nat) (hk : k < gs.length),
    (gs.map Category.id).Nodup → c.id = (gs.get ⟨k, hk⟩).id →
    applyReorderFun i gs c = { c with orderIndex := i + (k : Int) }
  | [], _, _, k, hk, _, _ => absurd hk (by simp)
  | g :: gs, i, c, 0, hk, hnd, hid => by
    have hgid : g.id ∉ gs.map Category.id := (List.nodup_cons.mp hnd).1
    have hbeq : (c.id == g.id) = true := by
      simp only [List.get] at hid
      simp [hid]
    simp only [applyReorderFun, hbeq, if_true]
    rw [applyReorderFun_not_mem]
    · cases c
      simp
    · simp only [List.get] at hid
      have : ({ c with orderIndex := i } : Category).id = g.id := hid
      rw [this]
      exact hgid
  | g :: gs, i, c, k + 1, hk, hnd, hid => by
    have hgid : g.id ∉ gs.map Category.id := (List.nodup_cons.mp hnd).1
    have hnd2 : (gs.map Category.id).Nodup := (List.nodup_cons.mp hnd).2
    have hk2 : k < gs.length := by
      simp only [List.length_cons] at hk
      omega
    have hid2 : c.id = (gs.get ⟨k, hk2⟩).id := hid
    have hmem : c.id ∈ gs.map Category.id := by
      rw [hid2]
      exact List.mem_map.mpr ⟨gs.get ⟨k, hk2⟩, gs.get_mem _ _, rfl⟩
    have hne : (c.id == g.id) = false := by
      simp only [beq_eq_false_iff_ne, ne_eq]
      intro hcg
      rw [hcg] at hmem
      exact hgid hmem
    simp only [applyReorderFun, hne, Bool.false_eq_true, if_false]
    rw [applyReorderFun_get gs (i + 1) c k hk2 hnd2 hid2]
    cases c
    simp only [Category.mk.injEq, and_true, true_and]
    push_cast
    ring

/-- C7: after reorderCategories on a permutation of the remote categories
of the user (ids pairwise distinct), the stored order index of every
category equals its position in the given sequence, regardless of the
prior indices, and the stored indices are pairwise distinct. -/
theorem reorderCategories_spec (given : List Category) (s : Store) (u : String)
    (hu : s.userId = some u)
    (hnd : (given.map Category.id).Nodup)
    (hperm : (given.map Category.id).Perm (s.remoteCategories.map Category.id)) :
    (∀ c ∈ ((reorderCategories given s).1).remoteCategories,
      ∀ (k : Nat) (hk : k < given.length),
        c.id = (given.get ⟨k, hk⟩).id → c.orderIndex = (k : Int)) ∧
    (∀ c1 ∈ ((reorderCategories given s).1).remoteCategories,
      ∀ c2 ∈ ((reorderCategories given s).1).remoteCategories,
        c1.id ≠ c2.id → c1.orderIndex ≠ c2.orderIndex) := by
  have hres : ((reorderCategories given s).1).remoteCategories =
      s.remoteCategories.map (applyReorderFun 0 given) := by
    unfold reorderCategories
    rw [hu]
    simp [applyReorder_eq_map]
  constructor
  · intro c hc k hk hid
    rw [hres] at hc
    rcases List.mem_map.mp hc with ⟨c0, _, rfl⟩
    rw [applyReorderFun_id] at hid
    rw [applyReorderFun_get given 0 c0 k hk hnd hid]
    simp
  · intro c1 hc1 c2 hc2 hne
    rw [hres] at hc1 hc2
    rcases List.mem_map.mp hc1 with ⟨c01, hc01, rfl⟩
    rcases List.mem_map.mp hc2 with ⟨c02, hc02, rfl⟩
    rw [applyReorderFun_id, applyReorderFun_id] at hne
    have h1 : c01.id ∈ given.map Category.id :=
      hperm.mem_iff.mpr (List.mem_map.mpr ⟨c01, hc01, rfl⟩)
    have h2 : c02.id ∈ given.map Category.id :=
      hperm.mem_iff.mpr (List.mem_map.mpr ⟨c02, hc02, rfl⟩)
    rcases List.mem_map.mp h1 with ⟨g1, hg1, hgid1⟩
    rcases List.mem_map.mp h2 with ⟨g2, hg2, hgid2⟩
    rcases List.mem_iff_get.mp hg1 with ⟨⟨k1, hk1⟩, hget1⟩
    rcases List.mem_iff_get.mp hg2 with ⟨⟨k2, hk2⟩, hget2⟩
    have e1 : applyReorderFun 0 given c01 = { c01 with orderIndex := 0 + (k1 : Int) } :=
      applyReorderFun_get given 0 c01 k1 hk1 hnd (by rw [hget1, hgid1])
    have e2 : applyReorderFun 0 given c02 = { c02 with orderIndex := 0 + (k2 : Int) } :=
      applyReorderFun_get given 0 c02 k2 hk2 hnd (by rw [hget2, hgid2])
    rw [e1, e2]
    simp only [ne_eq]
    intro hEq
    have hk12 : k1 = k2 := by
      have : (0 : Int) + (k1 : Int) = 0 + (k2 : Int) := hEq
      omega
    subst hk12
    apply hne
    rw [← hgid1, ← hgid2, ← hget1, ← hget2]

/-- Witness for reorderCategories_spec: three categories reordered as in
the spec example. -/
theorem reorderCategories_spec_witness :
    (∀ c ∈ ((reorderCategories
        [Category.mk "c2" "u" "B" 1 0, Category.mk "c1" "u" "A" 0 0,
         Category.mk "c3" "u" "C" 2 0]
        (Store.mk (some "u")
          [Category.mk "c1" "u" "A" 0 0, Category.mk "c2" "u" "B" 1 0,
           Category.mk "c3" "u" "C" 2 0] []
          [Category.mk "c1" "u" "A" 0 0, Category.mk "c2" "u" "B" 1 0,
           Category.mk "c3" "u" "C" 2 0] [])).1).remoteCategories,
      ∀ (k : Nat) (hk : k < ([Category.mk "c2" "u" "B" 1 0,
          Category.mk "c1" "u" "A" 0 0, Category.mk "c3" "u" "C" 2 0]).length),
        c.id = (([Category.mk "c2" "u" "B" 1 0, Category.mk "c1" "u" "A" 0 0,
          Category.mk "c3" "u" "C" 2 0]).get ⟨k, hk⟩).id →
          c.orderIndex = (k : Int)) ∧
    (∀ c1 ∈ ((reorderCategories
        [Category.mk "c2" "u" "B" 1 0, Category.mk "c1" "u" "A" 0 0,
         Category.mk "c3" "u" "C" 2 0]
        (Store.mk (some "u")
          [Category.mk "c1" "u" "A" 0 0, Category.mk "c2" "u" "B" 1 0,
           Category.mk "c3" "u" "C" 2 0] []
          [Category.mk "c1" "u" "A" 0 0, Category.mk "c2" "u" "B" 1 0,
           Category.mk "c3" "u" "C" 2 0] [])).1).remoteCategories,
      ∀ c2 ∈ ((reorderCategories
        [Category.mk "c2" "u" "B" 1 0, Category.mk "c1" "u" "A" 0 0,
         Category.mk "c3" "u" "C" 2 0]
        (Store.mk (some "u")
          [Category.mk "c1" "u" "A" 0 0, Category.mk "c2" "u" "B" 1 0,
           Category.mk "c3" "u" "C" 2 0] []
          [Category.mk "c1" "u" "A" 0 0, Category.mk "c2" "u" "B" 1 0,
           Category.mk "c3" "u" "C" 2 0] [])).1).remoteCategories,
        c1.id ≠ c2.id → c1.orderIndex ≠ c2.orderIndex) :=
  reorderCategories_spec
    [Category.mk "c2" "u" "B" 1 0, Category.mk "c1" "u" "A" 0 0,
     Category.mk "c3" "u" "C" 2 0]
    (Store.mk (some "u")
      [Category.mk "c1" "u" "A" 0 0, Category.mk "c2" "u" "B" 1 0,
       Category.mk "c3" "u" "C" 2 0] []
      [Category.mk "c1" "u" "A" 0 0, Category.mk "c2" "u" "B" 1 0,
       Category.mk "c3" "u" "C" 2 0] [])
    "u" rfl (by decide) (by decide)

/-! ## Remaining Task Store operations (src/context/TaskContext.tsx) -/

/-- saveDailyAnalytics, lines 182 to 194.  The rpc writes only the
analytics_history sink (outside this Store); its SQL body is not under
src/.  The catch logs the error and does not rethrow, so the promise
never rejects and the Store is unchanged whatever the outcome of the
call, which is all this model needs to record. -/
def saveDailyAnalytics (rpcOk : Bool) (s : Store) : Store × Nat × Bool :=
  match s.userId with
  | none => (s, 0, false)
  | some _ => (s, 1, false)

/-- toggleTask, lines 286 to 325: guarded on a signed-in user and on the
task being found; writes the flipped completion remotely, then mirrors it
locally, then runs saveDailyAnalytics; on a failed remote write it
rethrows without touching local state.  When un-completing, the remote
write carries the lastCompletedDate of the found local task, and omits
the column when that value is undefined. -/
def toggleTask (now : Int) (updOk anaOk : Bool) (taskId : String)
    (s : Store) : Store × Nat × Bool :=
  match s.userId with
  | none => (s, 0, false)
  | some _ =>
    match s.tasks.find? (fun t => t.id == taskId) with
    | none => (s, 0, false)
    | some task =>
      let newIsCompleted := !task.isCompleted
      if updOk then
        let remoteTasks2 := s.remoteTasks.map fun t =>
          if t.id == taskId then
            { t with isCompleted := newIsCompleted,
                     lastCompletedDate :=
                       if newIsCompleted then some now
                       else
                         match task.lastCompletedDate with
                         | some v => some v
                         | none => t.lastCompletedDate }
          else t
        let localTasks2 := s.tasks.map fun t =>
          if t.id == taskId then
            { t with isCompleted := newIsCompleted,
                     lastCompletedDate :=
                       if newIsCompleted then some now else t.lastCompletedDate }
          else t
        let a := saveDailyAnalytics anaOk
          { s with remoteTasks := remoteTasks2, tasks := localTasks2 }
        (a.1, 1 + a.2.1, a.2.2)
      else (s, 1, true)

/-- deleteTask, lines 327 to 343: remote delete by id, local filter, then
saveDailyAnalytics; a failed delete rethrows without touching local
state. -/
def deleteTask (delOk anaOk : Bool) (taskId : String) (s : Store) : Store × Nat × Bool :=
  match s.userId with
  | none => (s, 0, false)
  | some _ =>
    if delOk then
      let a := saveDailyAnalytics anaOk
        { s with remoteTasks := s.remoteTasks.filter (fun t => !(t.id == taskId)),
                 tasks := s.tasks.filter (fun t => !(t.id == taskId)) }
      (a.1, 1 + a.2.1, a.2.2)
    else (s, 1, true)

/-- deleteCategory, lines 345 to 363: remote delete of the category row
(the remote tasks of the category go with it by cascade), local filters
on both lists, then saveDailyAnalytics; a failed delete rethrows without
touching local state. -/
def deleteCategory (delOk anaOk : Bool) (categoryId : String) (s : Store) : Store × Nat × Bool :=
  match s.userId with
  | none => (s, 0, false)
  | some _ =>
    if delOk then
      let a := saveDailyAnalytics anaOk
        { s with
            remoteCategories := s.remoteCategories.filter (fun c => !(c.id == categoryId)),
            remoteTasks := s.remoteTasks.filter (fun t => !(t.categoryId == categoryId)),
            categories := s.categories.filter (fun c => !(c.id == categoryId)),
            tasks := s.tasks.filter (fun t => !(t.categoryId == categoryId)) }
      (a.1, 1 + a.2.1, a.2.2)
    else (s, 1, true)

/-- addCategory, lines 196 to 225: insert with order_index equal to the
current local category count; the returned row is appended locally; a
failed insert rethrows. -/
def addCategory (insOk : Bool) (newId : String) (createdAt : Int) (title : String)
    (s : Store) : Store × Nat × Bool :=
  match s.userId with
  | none => (s, 0, false)
  | some uid =>
    if insOk then
      let c := Category.mk newId uid title (s.categories.length : Int) createdAt
      ({ s with remoteCategories := s.remoteCategories ++ [c],
                categories := s.categories ++ [c] }, 1, false)
    else (s, 1, true)

/-- addTask, lines 227 to 261: insert with is_completed false and no
last_completed_date; the returned row is appended locally; a failed
insert rethrows. -/
def addTask (insOk : Bool) (newId : String) (createdAt : Int)
    (categoryId title : String) (isDaily : Bool) (s : Store) : Store × Nat × Bool :=
  match s.userId with
  | none => (s, 0, false)
  | some uid =>
    if insOk then
      let t := Task.mk newId uid categoryId title false isDaily none createdAt
      ({ s with remoteTasks := s.remoteTasks ++ [t],
                tasks := s.tasks ++ [t] }, 1, false)
    else (s, 1, true)

/-- updateTask, lines 263 to 284: remote title update by id, mirrored
locally; a failed update rethrows. -/
def updateTask (updOk : Bool) (taskId title : String) (s : Store) : Store × Nat × Bool :=
  match s.userId with
  | none => (s, 0, false)
  | some _ =>
    if updOk then
      ({ s with
          remoteTasks := s.remoteTasks.map
            (fun t => if t.id == taskId then { t with title := title } else t),
          tasks := s.tasks.map
            (fun t => if t.id == taskId then { t with title := title } else t) },
        1, false)
    else (s, 1, true)

/-- C8: when the remote write of a mutation fails, local state is exactly
what it was before: a failed toggleTask leaves the whole Store unchanged
and surfaces the failure (its promise rejects), and a failed rollover
update keeps no local-only reset state (local tasks and categories are
untouched). -/
theorem failed_write_leaves_state (tz now : Int) (anaOk loadOk rpcOk : Bool)
    (s : Store) (u taskId : String)
    (hu : s.userId = some u)
    (hex : ∃ t ∈ s.tasks, t.id = taskId) :
    ((toggleTask now false anaOk taskId s).1 = s ∧
     (toggleTask now false anaOk taskId s).2.2 = true) ∧
    (((checkAndResetDailyTasks tz now false loadOk rpcOk s).1).tasks = s.tasks ∧
     ((checkAndResetDailyTasks tz now false loadOk rpcOk s).1).categories = s.categories) := by
  constructor
  · rcases ho : s.tasks.find? (fun t => t.id == taskId) with _ | t
    · rcases hex with ⟨t, ht, hid⟩
      have := List.find?_eq_none.mp ho t ht
      simp [hid] at this
    · unfold toggleTask
      rw [hu, ho]
      simp
  · unfold checkAndResetDailyTasks
    rw [hu]
    by_cases hA : s.tasks.any (clientStale tz now) = true <;>
      cases rpcOk <;> simp [hA]

/-- Witness for failed_write_leaves_state at a concrete input. -/
theorem failed_write_leaves_state_witness :
    (∃ t ∈ (Store.mk (some "u") [] [Task.mk "x" "u" "c" "x" false true (some 0) 0]
        [] [Task.mk "x" "u" "c" "x" false true (some 0) 0]).tasks, t.id = "x") ∧
    ((toggleTask 9000 false true "x"
        (Store.mk (some "u") [] [Task.mk "x" "u" "c" "x" false true (some 0) 0]
          [] [Task.mk "x" "u" "c" "x" false true (some 0) 0])).1 =
      Store.mk (some "u") [] [Task.mk "x" "u" "c" "x" false true (some 0) 0]
        [] [Task.mk "x" "u" "c" "x" false true (some 0) 0] ∧
     (toggleTask 9000 false true "x"
        (Store.mk (some "u") [] [Task.mk "x" "u" "c" "x" false true (some 0) 0]
          [] [Task.mk "x" "u" "c" "x" false true (some 0) 0])).2.2 = true) ∧
    (((checkAndResetDailyTasks 0 9000 false true true
        (Store.mk (some "u") [] [Task.mk "x" "u" "c" "x" false true (some 0) 0]
          [] [Task.mk "x" "u" "c" "x" false true (some 0) 0])).1).tasks =
      (Store.mk (some "u") [] [Task.mk "x" "u" "c" "x" false true (some 0) 0]
        [] [Task.mk "x" "u" "c" "x" false true (some 0) 0]).tasks ∧
     ((checkAndResetDailyTasks 0 9000 false true true
        (Store.mk (some "u") [] [Task.mk "x" "u" "c" "x" false true (some 0) 0]
          [] [Task.mk "x" "u" "c" "x" false true (some 0) 0])).1).categories =
      (Store.mk (some "u") [] [Task.mk "x" "u" "c" "x" false true (some 0) 0]
        [] [Task.mk "x" "u" "c" "x" false true (some 0) 0]).categories) :=
  ⟨⟨Task.mk "x" "u" "c" "x" false true (some 0) 0, by decide, rfl⟩,
    failed_write_leaves_state 0 9000 true true true
      (Store.mk (some "u") [] [Task.mk "x" "u" "c" "x" false true (some 0) 0]
        [] [Task.mk "x" "u" "c" "x" false true (some 0) 0])
      "u" "x" rfl ⟨Task.mk "x" "u" "c" "x" false true (some 0) 0, by decide, rfl⟩⟩

/-- C9: a failure of the analytics recording step never fails the task
mutation that triggered it: with the remote task write succeeded,
toggleTask, deleteTask and deleteCategory resolve successfully (no
rejection) and produce exactly the state they produce when the recording
succeeds. -/
theorem analytics_failure_nonfatal (now : Int) (s : Store)
    (u tid tid2 cid : String)
    (hu : s.userId = some u) :
    ((toggleTask now true false tid s).2.2 = false ∧
     (toggleTask now true false tid s).1 = (toggleTask now true true tid s).1) ∧
    ((deleteTask true false tid2 s).2.2 = false ∧
     (deleteTask true false tid2 s).1 = (deleteTask true true tid2 s).1) ∧
    ((deleteCategory true false cid s).2.2 = false ∧
     (deleteCategory true false cid s).1 = (deleteCategory true true cid s).1) := by
  refine ⟨?_, ?_, ?_⟩
  · unfold toggleTask
    rw [hu]
    rcases ho : s.tasks.find? (fun t => t.id == tid) with _ | t <;>
      rw [ho] <;> simp [saveDailyAnalytics, hu]
  · unfold deleteTask
    rw [hu]
    simp [saveDailyAnalytics, hu]
  · unfold deleteCategory
    rw [hu]
    simp [saveDailyAnalytics, hu]

/-- Witness for analytics_failure_nonfatal at a concrete input. -/
theorem analytics_failure_nonfatal_witness :
    ((toggleTask 5 true false "x"
        (Store.mk (some "w") [] [Task.mk "x" "w" "c" "x" false true none 0]
          [] [Task.mk "x" "w" "c" "x" false true none 0])).2.2 = false ∧
     (toggleTask 5 true false "x"
        (Store.mk (some "w") [] [Task.mk "x" "w" "c" "x" false true none 0]
          [] [Task.mk "x" "w" "c" "x" false true none 0])).1 =
      (toggleTask 5 true true "x"
        (Store.mk (some "w") [] [Task.mk "x" "w" "c" "x" false true none 0]
          [] [Task.mk "x" "w" "c" "x" false true none 0])).1) ∧
    ((deleteTask true false "x"
        (Store.mk (some "w") [] [Task.mk "x" "w" "c" "x" false true none 0]
          [] [Task.mk "x" "w" "c" "x" false true none 0])).2.2 = false ∧
     (deleteTask true false "x"
        (Store.mk (some "w") [] [Task.mk "x" "w" "c" "x" false true none 0]
          [] [Task.mk "x" "w" "c" "x" false true none 0])).1 =
      (deleteTask true true "x"
        (Store.mk (some "w") [] [Task.mk "x" "w" "c" "x" false true none 0]
          [] [Task.mk "x" "w" "c" "x" false true none 0])).1) ∧
    ((deleteCategory true false "c"
        (Store.mk (some "w") [] [Task.mk "x" "w" "c" "x" false true none 0]
          [] [Task.mk "x" "w" "c" "x" false true none 0])).2.2 = false ∧
     (deleteCategory true false "c"
        (Store.mk (some "w") [] [Task.mk "x" "w" "c" "x" false true none 0]
          [] [Task.mk "x" "w" "c" "x" false true none 0])).1 =
      (deleteCategory true true "c"
        (Store.mk (some "w") [] [Task.mk "x" "w" "c" "x" false true none 0]
          [] [Task.mk "x" "w" "c" "x" false true none 0])).1) :=
  analytics_failure_nonfatal 5
    (Store.mk (some "w") [] [Task.mk "x" "w" "c" "x" false true none 0]
      [] [Task.mk "x" "w" "c" "x" false true none 0])
    "w" "x" "x" "c" rfl

/-- C10: with no signed-in user, every exposed operation resolves
successfully as a silent no-op: no remote call, no state change, no
rejection. -/
theorem signed_out_noop (s : Store) (h : s.userId = none)
    (tz now createdAt1 createdAt2 : Int)
    (ok1 ok2 ok3 ok4 ok5 ok6 ok7 ok8 ok9 ok10 ok11 ok12 : Bool)
    (id1 id2 cat1 title1 title2 title3 tid1 tid2 cid1 : String)
    (isDaily1 : Bool) (given : List Category) :
    addCategory ok1 id1 createdAt1 title1 s = (s, 0, false) ∧
    addTask ok2 id2 createdAt2 cat1 title2 isDaily1 s = (s, 0, false) ∧
    updateTask ok3 tid1 title3 s = (s, 0, false) ∧
    toggleTask now ok4 ok5 tid2 s = (s, 0, false) ∧
    deleteTask ok6 ok7 tid2 s = (s, 0, false) ∧
    deleteCategory ok8 ok9 cid1 s = (s, 0, false) ∧
    reorderCategories given s = (s, 0, false) ∧
    checkAndResetDailyTasks tz now ok10 ok11 ok12 s = (s, 0, false) ∧
    saveDailyAnalytics ok1 s = (s, 0, false) := by
  unfold addCategory addTask updateTask toggleTask deleteTask deleteCategory
    reorderCategories checkAndResetDailyTasks saveDailyAnalytics
  simp only [h]
  simp

/-- Witness for signed_out_noop at a concrete input. -/
theorem signed_out_noop_witness :
    addCategory true "i" 0 "T" (Store.mk none [] [] [] []) =
      (Store.mk none [] [] [] [], 0, false) ∧
    addTask true "j" 0 "c" "T" true (Store.mk none [] [] [] []) =
      (Store.mk none [] [] [] [], 0, false) ∧
    updateTask true "j" "T" (Store.mk none [] [] [] []) =
      (Store.mk none [] [] [] [], 0, false) ∧
    toggleTask 0 true true "j" (Store.mk none [] [] [] []) =
      (Store.mk none [] [] [] [], 0, false) ∧
    deleteTask true true "j" (Store.mk none [] [] [] []) =
      (Store.mk none [] [] [] [], 0, false) ∧
    deleteCategory true true "c" (Store.mk none [] [] [] []) =
      (Store.mk none [] [] [] [], 0, false) ∧
    reorderCategories [] (Store.mk none [] [] [] []) =
      (Store.mk none [] [] [] [], 0, false) ∧
    checkAndResetDailyTasks 0 0 true true true (Store.mk none [] [] [] []) =
      (Store.mk none [] [] [] [], 0, false) ∧
    saveDailyAnalytics true (Store.mk none [] [] [] []) =
      (Store.mk none [] [] [] [], 0, false) :=
  signed_out_noop (Store.mk none [] [] [] []) rfl 0 0 0 0
    true true true true true true true true true true true true
    "i" "j" "c" "T" "T" "T" "j" "j" "c" true []

end TaskExplorer
